import Mathlib

set_option linter.unnecessarySimpa false

/-!
Verification development for the OAuth/OIDC broker in `src/auth.ts` of the
mcp-auth0-oidc repository.  The handlers `authorize`, `confirmConsent`,
`callback` and `tokenExchangeCallback` are embedded shallowly: the cookie jar
is the transaction store (the source keeps the whole pending-authorization
bundle in a transaction-named cookie, serialised with `btoa(JSON.stringify _)`;
the base64/JSON round-trip is lossless and modelled as the identity, so the
jar maps cookie names to bundles directly).  Network interactions with the
identity provider and with the downstream OAuth provider library are supplied
as explicit oracle arguments; the checks performed inside the `oauth4webapi`
library are modelled from the specification and marked as such.
-/

namespace McpAuth0

/-- TypeScript falsiness for `string | null | undefined` values: `null`,
`undefined` and the empty string are falsy. -/
def falsyOpt : Option String → Option String
  | none => none
  | some s => if s = "" then none else some s

/-- TypeScript `a || b` for an optional string `a` and default `b`. -/
def orFalsy (a : Option String) (b : String) : String :=
  match falsyOpt a with
  | some s => s
  | none => b

/-- A URL modelled as a base (origin and path) plus its search parameters.
`URLSearchParams.set` replaces every pair with the given key by the single
new pair; the position of the pair inside the list is abstracted away. -/
structure Url where
  base : String
  params : List (String × String)
deriving Repr, DecidableEq

def Url.setParam (u : Url) (k v : String) : Url :=
  { u with params := u.params.filter (fun p => p.1 != k) ++ [(k, v)] }

def Url.getParam (u : Url) (k : String) : Option String :=
  (u.params.find? (fun p => p.1 == k)).map (fun p => p.2)

/-- The downstream (MCP client) authorization request as parsed by
`OAUTH_PROVIDER.parseAuthRequest`: the fields `auth.ts` reads. -/
structure AuthRequest where
  clientId : String
  redirectUri : Url
  scope : String
  state : String
deriving Repr, DecidableEq

/-- The `Auth0AuthRequest` bundle persisted in the transaction cookie
(`src/auth.ts`, type `Auth0AuthRequest`). -/
structure Auth0AuthRequest where
  mcpAuthRequest : AuthRequest
  codeVerifier : String
  codeChallenge : String
  nonce : String
  transactionState : String
  consentToken : String
deriving Repr, DecidableEq

/-- The cookie jar: the only cross-request state of the broker. -/
abbrev CookieJar := List (String × Auth0AuthRequest)

def getCookie (jar : CookieJar) (name : String) : Option Auth0AuthRequest :=
  (jar.find? (fun e => e.1 == name)).map (fun e => e.2)

/-- `setCookie` with `maxAge 0` deletes the cookie. -/
def eraseCookie (jar : CookieJar) (name : String) : CookieJar :=
  jar.filter (fun e => e.1 != name)

/-- `setCookie` with a value stores (or replaces) the cookie. -/
def putCookie (jar : CookieJar) (name : String) (b : Auth0AuthRequest) : CookieJar :=
  (name, b) :: eraseCookie jar name

/-- `auth0_req_<transactionState>`: the transaction-specific cookie name. -/
def cookieName (transactionState : String) : String :=
  "auth0_req_" ++ transactionState

/-- Client metadata returned by `OAUTH_PROVIDER.lookupClient`. -/
structure ClientInfo where
  clientId : String
  clientName : Option String
  logoUri : Option String
  clientUri : Option String
deriving Repr, DecidableEq

/-- The environment bindings `auth.ts` reads (besides the Auth0 domain and
client secret, which only feed the network layer modelled by the oracles). -/
structure EnvCfg where
  AUTH0_CLIENT_ID : String
  AUTH0_AUDIENCE : String
  AUTH0_SCOPE : String
deriving Repr, DecidableEq

/-- The data interpolated into the consent screen by `renderConsentScreen`. -/
structure ConsentScreen where
  clientName : String
  clientLogo : String
  clientUri : String
  redirectUri : Url
  requestedScopes : List String
  transactionState : String
  consentToken : String
deriving Repr, DecidableEq

/-- Responses produced by the `authorize` and consent handlers. -/
inductive HttpResponse where
  | text (body : String) (status : Nat)
  | consentPage (screen : ConsentScreen)
  | redirect (url : Url)
  | failure (e : String)
deriving Repr, DecidableEq

/-- The four random values generated at the authorize step. -/
structure Rnd where
  codeVerifier : String
  transactionState : String
  consentToken : String
  nonce : String
deriving Repr, DecidableEq

/-- The bundle built at the authorize step (`auth.ts` lines 68-75); the code
challenge is derived from the fresh verifier by `calculatePKCECodeChallenge`,
passed here as the function `challenge`. -/
def authBundle (challenge : String → String) (req : AuthRequest) (rnd : Rnd) :
    Auth0AuthRequest :=
  { mcpAuthRequest := req
    codeVerifier := rnd.codeVerifier
    codeChallenge := challenge rnd.codeVerifier
    nonce := rnd.nonce
    transactionState := rnd.transactionState
    consentToken := rnd.consentToken }

/-- The `authorize` handler (`auth.ts` lines 51-105). -/
def authorize (challenge : String → String) (lookupClient : String → Option ClientInfo)
    (envc : EnvCfg) (req : AuthRequest) (rnd : Rnd) (jar : CookieJar) :
    HttpResponse × CookieJar :=
  if req.clientId = "" then (.text "Invalid request" 400, jar)
  else
    match lookupClient req.clientId with
    | none => (.text "Invalid client" 400, jar)
    | some client =>
      let bundle := authBundle challenge req rnd
      let jar' := putCookie jar (cookieName rnd.transactionState) bundle
      (.consentPage
        { clientName := orFalsy client.clientName client.clientId
          clientLogo := orFalsy client.logoUri ""
          clientUri := orFalsy client.clientUri "#"
          redirectUri := req.redirectUri
          requestedScopes := envc.AUTH0_SCOPE.splitOn " "
          transactionState := rnd.transactionState
          consentToken := rnd.consentToken }, jar')

/-- The POST form of the consent confirmation endpoint; `formData.get`
yields `null` for a missing field, modelled as `none`. -/
structure ConsentForm where
  transaction_state : Option String
  consent_token : Option String
  consent_action : Option String
deriving Repr, DecidableEq

/-- Provider metadata resolved by discovery (`getOidcConfig`). -/
structure OidcMeta where
  authorization_endpoint : String
deriving Repr, DecidableEq

/-- The redirect built on the deny branch of `confirmConsent`
(`auth.ts` lines 142-159). -/
def denyRedirectUrl (b : Auth0AuthRequest) : Url :=
  let u := (b.mcpAuthRequest.redirectUri.setParam "error" "access_denied").setParam
    "error_description" "User denied the request"
  if b.mcpAuthRequest.state ≠ "" then u.setParam "state" b.mcpAuthRequest.state else u

/-- The upstream authorization URL built on the approve branch of
`confirmConsent` (`auth.ts` lines 169-178). -/
def upstreamAuthUrl (envc : EnvCfg) (authEndpoint callbackUri : String)
    (b : Auth0AuthRequest) (transactionState : String) : Url :=
  Url.mk authEndpoint []
    |>.setParam "client_id" envc.AUTH0_CLIENT_ID
    |>.setParam "redirect_uri" callbackUri
    |>.setParam "response_type" "code"
    |>.setParam "audience" envc.AUTH0_AUDIENCE
    |>.setParam "scope" envc.AUTH0_SCOPE
    |>.setParam "code_challenge" b.codeChallenge
    |>.setParam "code_challenge_method" "S256"
    |>.setParam "nonce" b.nonce
    |>.setParam "state" transactionState

/-- The `confirmConsent` handler (`auth.ts` lines 112-180).  `disco` is the
outcome of the discovery request performed on the approve branch and
`callbackUri` is `new URL("/callback", c.req.url).href`. -/
def confirmConsent (envc : EnvCfg) (disco : Except String OidcMeta)
    (callbackUri : String) (form : ConsentForm) (jar : CookieJar) :
    HttpResponse × CookieJar :=
  match falsyOpt form.transaction_state with
  | none => (.text "Invalid transaction state" 400, jar)
  | some transactionState =>
    match getCookie jar (cookieName transactionState) with
    | none => (.text "Invalid or expired transaction" 400, jar)
    | some auth0AuthRequest =>
      if form.consent_token ≠ some auth0AuthRequest.consentToken then
        (.text "Invalid consent token" 403, jar)
      else if form.consent_action ≠ some "approve" then
        (.redirect (denyRedirectUrl auth0AuthRequest),
         eraseCookie jar (cookieName transactionState))
      else
        match disco with
        | .error e => (.failure e, jar)
        | .ok meta =>
          (.redirect (upstreamAuthUrl envc meta.authorization_endpoint callbackUri
            auth0AuthRequest transactionState), jar)

/-- The validated ID-token claim set the broker reads (subject, name, email)
together with the nonce claim checked during processing. -/
structure IdentityClaims where
  sub : String
  name : Option String
  email : Option String
  nonce : String
deriving Repr, DecidableEq

/-- The wire response of a token request to the identity provider, together
with the outcomes of the checks the `oauth4webapi` library performs on it. -/
structure TokenResponse where
  access_token : String
  expires_in : Option Nat
  id_token : String
  refresh_token : Option String
  sigValid : Bool
  issuerValid : Bool
  audienceValid : Bool
  claims : Option IdentityClaims
deriving Repr, DecidableEq

/-- Modelled from the spec: `validateIdToken(response, expectedNonce)` fails
with `InvalidIdToken` if claims are absent, signature/issuer/audience checks
fail, or the nonce does not match the one persisted for this transaction.
This is the check performed by `oauth.processAuthorizationCodeResponse` with
`requireIdToken := true`, whose code is outside this repository. -/
def processAuthorizationCodeResponse (resp : TokenResponse) (expectedNonce : String) :
    Bool :=
  resp.sigValid && resp.issuerValid && resp.audienceValid &&
    match resp.claims with
    | none => false
    | some cl => cl.nonce == expectedNonce

/-- The bundle handed to `OAUTH_PROVIDER.completeAuthorization`. -/
structure TokenSet where
  accessToken : String
  accessTokenTTL : Option Nat
  idToken : String
  refreshToken : Option String
deriving Repr, DecidableEq

/-- The property bag stored in the downstream grant.  The declared TypeScript
type `UserProps` omits `accessTokenTTL`, but the callback stores it in the
token set at runtime (hidden by an `as UserProps` cast), so it is a field of
the modelled token set. -/
structure UserProps where
  claims : IdentityClaims
  tokenSet : TokenSet
deriving Repr, DecidableEq

structure CompletedGrant where
  label : String
  userId : String
  scope : String
  props : UserProps
deriving Repr, DecidableEq

/-- Oracle for the network interactions of the `callback` handler: discovery
outcome, the wire outcome of the authorization-code grant request, and the
redirect target returned by `completeAuthorization`. -/
structure CallbackOracle where
  meta : Except String OidcMeta
  tokenResp : Except String TokenResponse
  completeRedirect : String
deriving Repr

inductive CallbackResult where
  | errorText (body : String) (status : Nat)
  | failure (e : String)
  | completed (grant : CompletedGrant) (redirectTo : String)
deriving Repr, DecidableEq

/-- Whether the handler answered with a 400-status plain-text error. -/
def CallbackResult.is400 : CallbackResult → Bool
  | .errorText _ 400 => true
  | _ => false

/-- The `callback` handler (`auth.ts` lines 189-265).  The state-correlation
and code-presence checks of `oauth.validateAuthResponse` are modelled from
the spec (the response `state` must equal the expected transaction state and
a `code` must be present); the nonce and token checks are
`processAuthorizationCodeResponse` above. -/
def callback (stateParam codeParam : Option String) (jar : CookieJar)
    (o : CallbackOracle) : CallbackResult × CookieJar :=
  match falsyOpt stateParam with
  | none => (.errorText "Invalid state parameter" 400, jar)
  | some st =>
    match getCookie jar (cookieName st) with
    | none => (.errorText "Invalid transaction state or session expired" 400, jar)
    | some auth0AuthRequest =>
      let jar' := eraseCookie jar (cookieName st)
      match o.meta with
      | .error e => (.failure e, jar')
      | .ok _meta =>
        if st ≠ auth0AuthRequest.transactionState then
          (.failure "Auth response state mismatch", jar')
        else
          match codeParam with
          | none => (.failure "Missing authorization code", jar')
          | some _code =>
            match o.tokenResp with
            | .error e => (.failure e, jar')
            | .ok resp =>
              if processAuthorizationCodeResponse resp auth0AuthRequest.nonce then
                match resp.claims with
                | none => (.errorText "Received invalid id_token from Auth0" 400, jar')
                | some claims =>
                  (.completed
                    { label := orFalsy claims.name (orFalsy claims.email claims.sub)
                      userId := claims.sub
                      scope := auth0AuthRequest.mcpAuthRequest.scope
                      props :=
                        { claims := claims
                          tokenSet :=
                            { accessToken := resp.access_token
                              accessTokenTTL := resp.expires_in
                              idToken := resp.id_token
                              refreshToken := resp.refresh_token } } }
                    o.completeRedirect, jar')
              else (.failure "InvalidIdToken", jar')

/-- Does the `state` query parameter map to a live (not yet consumed)
transaction in the jar?  A missing or empty `state` maps to none. -/
def liveTransaction (jar : CookieJar) (stateParam : Option String) :
    Option Auth0AuthRequest :=
  match falsyOpt stateParam with
  | none => none
  | some st => getCookie jar (cookieName st)

/-- The result returned by `tokenExchangeCallback` on success. -/
structure TokenExchangeCallbackResult where
  accessTokenTTL : Option Nat
  newProps : UserProps
deriving Repr, DecidableEq

/-- A network call to the identity provider, recorded in a trace. -/
inductive NetCall where
  | discovery
  | refreshGrant (refreshToken : String)
deriving Repr, DecidableEq

/-- Oracle for the network interactions of the refresh branch of
`tokenExchangeCallback`: discovery outcome and the wire outcome of the
refresh-grant request. -/
structure RefreshOracle where
  meta : Except String OidcMeta
  refreshResp : Except String TokenResponse
deriving Repr

/-- Modelled from the spec: `oauth.processRefreshTokenResponse` (code outside
this repository) fails with `RefreshError` on provider rejection, modelled by
the validity outcomes carried in the response. -/
def processRefreshTokenResponse (resp : TokenResponse) : Bool :=
  resp.sigValid && resp.issuerValid && resp.audienceValid

/-- The `tokenExchangeCallback` function (`auth.ts` lines 272-328), with a
trace of the network calls it makes.  A thrown `Error` is `.error`; the
TypeScript `void` return on an unknown grant type is `.ok none`. -/
def tokenExchangeCallback (grantType : String) (props : UserProps)
    (o : RefreshOracle) :
    Except String (Option TokenExchangeCallbackResult) × List NetCall :=
  if grantType = "authorization_code" then
    (.ok (some { accessTokenTTL := props.tokenSet.accessTokenTTL, newProps := props }),
     [])
  else if grantType = "refresh_token" then
    match falsyOpt props.tokenSet.refreshToken with
    | none => (.error "No Auth0 refresh token found", [])
    | some auth0RefreshToken =>
      match o.meta with
      | .error e => (.error e, [.discovery])
      | .ok _meta =>
        match o.refreshResp with
        | .error e => (.error e, [.discovery, .refreshGrant auth0RefreshToken])
        | .ok resp =>
          if processRefreshTokenResponse resp then
            match resp.claims with
            | none =>
              (.error "Received invalid id_token from Auth0",
               [.discovery, .refreshGrant auth0RefreshToken])
            | some claims =>
              (.ok (some
                { accessTokenTTL := resp.expires_in
                  newProps :=
                    { claims := claims
                      tokenSet :=
                        { accessToken := resp.access_token
                          accessTokenTTL := resp.expires_in
                          idToken := resp.id_token
                          refreshToken :=
                            match falsyOpt resp.refresh_token with
                            | some newRt => some newRt
                            | none => some auth0RefreshToken } } }),
               [.discovery, .refreshGrant auth0RefreshToken])
          else
            (.error "RefreshError", [.discovery, .refreshGrant auth0RefreshToken])
  else (.ok none, [])

/-! ## Helper lemmas on the cookie jar and on URL parameters -/

theorem getCookie_erase_self (jar : CookieJar) (n : String) :
    getCookie (eraseCookie jar n) n = none := by
  induction jar with
  | nil => rfl
  | cons e t ih =>
    by_cases h : e.1 = n
    · simpa [eraseCookie, List.filter_cons, h] using ih
    · simpa [eraseCookie, getCookie, List.filter_cons, List.find?_cons, h] using ih

theorem getCookie_put_self (jar : CookieJar) (n : String) (b : Auth0AuthRequest) :
    getCookie (putCookie jar n b) n = some b := by
  simp [putCookie, getCookie, List.find?_cons]

theorem find?_key_filter_ne (l : List (String × String)) (k : String) :
    (l.filter (fun p => p.1 != k)).find? (fun p => p.1 == k) = none := by
  induction l with
  | nil => rfl
  | cons e t ih =>
    by_cases h : e.1 = k
    · simpa [List.filter_cons, h] using ih
    · simpa [List.filter_cons, List.find?_cons, h] using ih

theorem find?_key_filter_other (l : List (String × String)) (k k' : String)
    (h : k' ≠ k) :
    (l.filter (fun p => p.1 != k)).find? (fun p => p.1 == k')
      = l.find? (fun p => p.1 == k') := by
  induction l with
  | nil => rfl
  | cons e t ih =>
    by_cases he : e.1 = k
    · have hkk : (k == k') = false := beq_eq_false_iff_ne.mpr (Ne.symm h)
      simp [List.filter_cons, he, List.find?_cons, hkk, ih]
    · by_cases he' : e.1 = k'
      · simp [List.filter_cons, he, List.find?_cons, he', h]
      · simp [List.filter_cons, he, List.find?_cons, he', ih]

theorem Url.getParam_setParam_self (u : Url) (k v : String) :
    (u.setParam k v).getParam k = some v := by
  simp [Url.setParam, Url.getParam, List.find?_append, find?_key_filter_ne]

theorem Url.getParam_setParam_other (u : Url) (k k' v : String) (h : k' ≠ k) :
    (u.setParam k v).getParam k' = u.getParam k' := by
  have hkk : (k == k') = false := beq_eq_false_iff_ne.mpr (Ne.symm h)
  simp [Url.setParam, Url.getParam, List.find?_append, find?_key_filter_other _ _ _ h,
    List.find?_cons, hkk]

theorem Url.base_setParam (u : Url) (k v : String) : (u.setParam k v).base = u.base :=
  rfl

/-! ## Sample concrete inputs used by the witnesses -/

def sampleRedirect : Url := { base := "https://client.example/cb", params := [] }

def sampleReq : AuthRequest :=
  { clientId := "c1", redirectUri := sampleRedirect, scope := "openid profile",
    state := "xyz" }

def sampleBundle : Auth0AuthRequest :=
  { mcpAuthRequest := sampleReq, codeVerifier := "ver", codeChallenge := "chal",
    nonce := "non", transactionState := "t", consentToken := "ctok" }

def sampleJar : CookieJar := [("auth0_req_t", sampleBundle)]

def sampleMeta : OidcMeta := { authorization_endpoint := "https://idp.example/authorize" }

def sampleEnv : EnvCfg :=
  { AUTH0_CLIENT_ID := "cid", AUTH0_AUDIENCE := "aud", AUTH0_SCOPE := "openid profile" }

def sampleRnd : Rnd :=
  { codeVerifier := "ver", transactionState := "t", consentToken := "ctok",
    nonce := "non" }

def sampleClient : ClientInfo :=
  { clientId := "c1", clientName := some "Demo Client", logoUri := none,
    clientUri := some "https://client.example" }

def sampleChallenge (v : String) : String := v ++ "-S256"

def sampleLookup (cid : String) : Option ClientInfo :=
  if cid = "c1" then some sampleClient else none

def sampleClaims : IdentityClaims :=
  { sub := "user1", name := some "User One", email := some "u1@example.com",
    nonce := "non" }

def sampleCbOracle : CallbackOracle :=
  { meta := .ok sampleMeta, tokenResp := .error "network failure",
    completeRedirect := "https://client.example/done" }

def sampleBadNonceClaims : IdentityClaims :=
  { sub := "user1", name := none, email := none, nonce := "other" }

def sampleBadNonceResp : TokenResponse :=
  { access_token := "at", expires_in := some 3600, id_token := "idt",
    refresh_token := some "rt", sigValid := true, issuerValid := true,
    audienceValid := true, claims := some sampleBadNonceClaims }

def sampleCbOracleBadNonce : CallbackOracle :=
  { meta := .ok sampleMeta, tokenResp := .ok sampleBadNonceResp,
    completeRedirect := "https://client.example/done" }

def samplePropsNoRefresh : UserProps :=
  { claims := sampleClaims,
    tokenSet := { accessToken := "at", accessTokenTTL := some 3600, idToken := "idt",
                  refreshToken := none } }

def samplePropsWithRefresh : UserProps :=
  { claims := sampleClaims,
    tokenSet := { accessToken := "at", accessTokenTTL := some 3600, idToken := "idt",
                  refreshToken := some "rt0" } }

def sampleRefreshOracle : RefreshOracle :=
  { meta := .ok sampleMeta, refreshResp := .error "unused" }

def sampleRefreshedClaims : IdentityClaims :=
  { sub := "user1", name := none, email := none, nonce := "n2" }

def sampleRefreshResp : TokenResponse :=
  { access_token := "at2", expires_in := some 7200, id_token := "idt2",
    refresh_token := none, sigValid := true, issuerValid := true,
    audienceValid := true, claims := some sampleRefreshedClaims }

def sampleRefreshOracleOk : RefreshOracle :=
  { meta := .ok sampleMeta, refreshResp := .ok sampleRefreshResp }

/-! ## Claim theorems -/

/-- Claim C5: every invocation of the token-exchange callback with grant
type authorization_code returns a downstream access-token lifetime exactly
equal to the access-token lifetime stored in the wrapped upstream token set
of the property bag; the property bag is passed through and no network call
is made. -/
theorem tokenExchange_authcode_ttl_passthrough (props : UserProps)
    (o : RefreshOracle) :
    tokenExchangeCallback "authorization_code" props o
      = (.ok (some { accessTokenTTL := props.tokenSet.accessTokenTTL,
                     newProps := props }), []) := rfl

/-- Claim C6: the token-exchange callback with grant type refresh_token and
no stored upstream refresh token (absent or empty, the TypeScript falsy
check) throws and performs no network call: the trace of identity-provider
calls is empty, so neither discovery nor a refresh-grant request happens. -/
theorem tokenExchange_refresh_no_token_fails (props : UserProps)
    (o : RefreshOracle) (h : falsyOpt props.tokenSet.refreshToken = none) :
    tokenExchangeCallback "refresh_token" props o
      = (.error "No Auth0 refresh token found", []) := by
  simp [tokenExchangeCallback, h]

theorem tokenExchange_refresh_no_token_fails_witness :
    tokenExchangeCallback "refresh_token" samplePropsNoRefresh sampleRefreshOracle
      = (.error "No Auth0 refresh token found", []) :=
  tokenExchange_refresh_no_token_fails samplePropsNoRefresh sampleRefreshOracle rfl

/-- Claim C7: on a successful refresh-token exchange, the returned property
bag replaces the identity claims and the entire upstream token set together,
and the refresh token of the new token set is the provider's newly issued
one when the provider issued a non-empty one, otherwise the prior stored
refresh token. -/
theorem tokenExchange_refresh_atomic (props : UserProps) (o : RefreshOracle)
    (rt : String) (m : OidcMeta) (resp : TokenResponse) (claims : IdentityClaims)
    (hrt : falsyOpt props.tokenSet.refreshToken = some rt)
    (hm : o.meta = .ok m) (hr : o.refreshResp = .ok resp)
    (hv : processRefreshTokenResponse resp = true) (hc : resp.claims = some claims) :
    tokenExchangeCallback "refresh_token" props o
      = (.ok (some
          { accessTokenTTL := resp.expires_in
            newProps :=
              { claims := claims
                tokenSet :=
                  { accessToken := resp.access_token
                    accessTokenTTL := resp.expires_in
                    idToken := resp.id_token
                    refreshToken :=
                      match falsyOpt resp.refresh_token with
                      | some newRt => some newRt
                      | none => some rt } } }),
         [.discovery, .refreshGrant rt]) := by
  simp [tokenExchangeCallback, hrt, hm, hr, hv, hc]

theorem tokenExchange_refresh_atomic_witness :
    tokenExchangeCallback "refresh_token" samplePropsWithRefresh sampleRefreshOracleOk
      = (.ok (some
          { accessTokenTTL := some 7200
            newProps :=
              { claims := sampleRefreshedClaims
                tokenSet :=
                  { accessToken := "at2", accessTokenTTL := some 7200,
                    idToken := "idt2", refreshToken := some "rt0" } } }),
         [.discovery, .refreshGrant "rt0"]) := by
  have h := tokenExchange_refresh_atomic samplePropsWithRefresh sampleRefreshOracleOk
    "rt0" sampleMeta sampleRefreshResp sampleRefreshedClaims rfl rfl rfl rfl rfl
  exact h

/-- Claim C9: an authorize request with a missing client id, or with a
client id unknown to the provider, returns a 400-class plain-text error and
creates no session state: the cookie jar is returned unchanged, so no
pending-authorization bundle is persisted and no transaction cookie is set. -/
theorem authorize_invalid_client_no_session
    (challenge : String → String) (lookupClient : String → Option ClientInfo)
    (envc : EnvCfg) (req : AuthRequest) (rnd : Rnd) (jar : CookieJar) :
    (req.clientId = "" →
      authorize challenge lookupClient envc req rnd jar
        = (.text "Invalid request" 400, jar))
    ∧ (req.clientId ≠ "" → lookupClient req.clientId = none →
      authorize challenge lookupClient envc req rnd jar
        = (.text "Invalid client" 400, jar)) := by
  constructor
  · intro h
    simp [authorize, h]
  · intro h hl
    simp [authorize, h, hl]

theorem authorize_invalid_client_no_session_witness :
    (authorize sampleChallenge (fun _ => none) sampleEnv
        { clientId := "", redirectUri := sampleRedirect, scope := "openid",
          state := "s9" } sampleRnd []
      = (.text "Invalid request" 400, []))
    ∧ (authorize sampleChallenge (fun _ => none) sampleEnv
        { clientId := "ghost", redirectUri := sampleRedirect, scope := "openid",
          state := "s9" } sampleRnd []
      = (.text "Invalid client" 400, [])) :=
  ⟨(authorize_invalid_client_no_session sampleChallenge (fun _ => none) sampleEnv
      { clientId := "", redirectUri := sampleRedirect, scope := "openid",
        state := "s9" } sampleRnd []).1 rfl,
   (authorize_invalid_client_no_session sampleChallenge (fun _ => none) sampleEnv
      { clientId := "ghost", redirectUri := sampleRedirect, scope := "openid",
        state := "s9" } sampleRnd []).2 (by decide) rfl⟩

/-- Claim C2: a consent submission whose consent token differs from the one
stored in the pending-authorization bundle for that transaction id is
rejected with a 403 ConsentForgery error regardless of the action value; the
jar is untouched and the response is the plain-text error, so no redirect to
the upstream identity provider is produced. -/
theorem consent_token_mismatch_rejected (envc : EnvCfg)
    (disco : Except String OidcMeta) (callbackUri : String) (ts : String)
    (tok action : Option String) (jar : CookieJar) (b : Auth0AuthRequest)
    (hts : ts ≠ "") (hlk : getCookie jar (cookieName ts) = some b)
    (htok : tok ≠ some b.consentToken) :
    confirmConsent envc disco callbackUri
      { transaction_state := some ts, consent_token := tok,
        consent_action := action } jar
      = (.text "Invalid consent token" 403, jar) := by
  simp [confirmConsent, falsyOpt, hts, hlk, htok]

theorem consent_token_mismatch_rejected_witness :
    confirmConsent sampleEnv (.ok sampleMeta) "https://broker.example/callback"
      { transaction_state := some "t", consent_token := some "wrong",
        consent_action := some "approve" } sampleJar
      = (.text "Invalid consent token" 403, sampleJar) :=
  consent_token_mismatch_rejected sampleEnv (.ok sampleMeta)
    "https://broker.example/callback" "t" (some "wrong") (some "approve") sampleJar
    sampleBundle (by decide) rfl (by decide)

theorem denyRedirectUrl_eq (b : Auth0AuthRequest) (h : b.mcpAuthRequest.state ≠ "") :
    denyRedirectUrl b
      = ((b.mcpAuthRequest.redirectUri.setParam "error" "access_denied").setParam
          "error_description" "User denied the request").setParam "state"
          b.mcpAuthRequest.state := by
  simp [denyRedirectUrl, h]

/-- Claim C4: a consent submission with action deny and a matching consent
token redirects to the downstream client's original redirect URI carrying
error=access_denied, preserves the original opaque downstream state
parameter unchanged, and invalidates the transaction (its cookie is erased
from the jar). -/
theorem consent_deny_redirect (envc : EnvCfg) (disco : Except String OidcMeta)
    (callbackUri : String) (ts : String) (jar : CookieJar) (b : Auth0AuthRequest)
    (hts : ts ≠ "") (hlk : getCookie jar (cookieName ts) = some b)
    (hstate : b.mcpAuthRequest.state ≠ "") :
    confirmConsent envc disco callbackUri
      { transaction_state := some ts, consent_token := some b.consentToken,
        consent_action := some "deny" } jar
      = (.redirect (denyRedirectUrl b), eraseCookie jar (cookieName ts))
    ∧ (denyRedirectUrl b).getParam "error" = some "access_denied"
    ∧ (denyRedirectUrl b).getParam "state" = some b.mcpAuthRequest.state
    ∧ (denyRedirectUrl b).base = b.mcpAuthRequest.redirectUri.base := by
  refine ⟨?_, ?_, ?_, ?_⟩
  · simp [confirmConsent, falsyOpt, hts, hlk]
  · rw [denyRedirectUrl_eq b hstate,
      Url.getParam_setParam_other _ "state" "error" _ (by decide),
      Url.getParam_setParam_other _ "error_description" "error" _ (by decide),
      Url.getParam_setParam_self]
  · rw [denyRedirectUrl_eq b hstate, Url.getParam_setParam_self]
  · rw [denyRedirectUrl_eq b hstate, Url.base_setParam, Url.base_setParam,
      Url.base_setParam]

theorem consent_deny_redirect_witness :
    (confirmConsent sampleEnv (.ok sampleMeta) "https://broker.example/callback"
      { transaction_state := some "t", consent_token := some "ctok",
        consent_action := some "deny" } sampleJar
      = (.redirect (denyRedirectUrl sampleBundle),
         eraseCookie sampleJar (cookieName "t")))
    ∧ (denyRedirectUrl sampleBundle).getParam "error" = some "access_denied"
    ∧ (denyRedirectUrl sampleBundle).getParam "state" = some "xyz"
    ∧ (denyRedirectUrl sampleBundle).base = "https://client.example/cb" := by
  have h := consent_deny_redirect sampleEnv (.ok sampleMeta)
    "https://broker.example/callback" "t" sampleJar sampleBundle (by decide) rfl
    (by decide)
  exact ⟨h.1, h.2.1, h.2.2.1, h.2.2.2⟩

/-- Claim C10: with a live transaction and a matching consent token, every
consent action other than exactly approve (deny, an unrecognized string, or
a missing field) is treated as a denial: the transaction cookie is erased
and the user agent is redirected to the downstream client with the
access_denied error; the exact action approve instead produces the redirect
to the upstream authorization URL. -/
theorem consent_action_dichotomy (envc : EnvCfg) (meta : OidcMeta)
    (callbackUri : String) (ts : String) (jar : CookieJar) (b : Auth0AuthRequest)
    (action : Option String)
    (hts : ts ≠ "") (hlk : getCookie jar (cookieName ts) = some b) :
    (action ≠ some "approve" →
      confirmConsent envc (.ok meta) callbackUri
        { transaction_state := some ts, consent_token := some b.consentToken,
          consent_action := action } jar
        = (.redirect (denyRedirectUrl b), eraseCookie jar (cookieName ts)))
    ∧ (denyRedirectUrl b).getParam "error" = some "access_denied"
    ∧ (confirmConsent envc (.ok meta) callbackUri
        { transaction_state := some ts, consent_token := some b.consentToken,
          consent_action := some "approve" } jar
        = (.redirect (upstreamAuthUrl envc meta.authorization_endpoint callbackUri
             b ts), jar)) := by
  refine ⟨?_, ?_, ?_⟩
  · intro ha
    simp [confirmConsent, falsyOpt, hts, hlk, ha]
  · by_cases hstate : b.mcpAuthRequest.state ≠ ""
    · rw [denyRedirectUrl_eq b hstate,
        Url.getParam_setParam_other _ "state" "error" _ (by decide),
        Url.getParam_setParam_other _ "error_description" "error" _ (by decide),
        Url.getParam_setParam_self]
    · have hstate' : b.mcpAuthRequest.state = "" := by
        by_contra hne
        exact hstate hne
      rw [show denyRedirectUrl b
          = (b.mcpAuthRequest.redirectUri.setParam "error" "access_denied").setParam
            "error_description" "User denied the request" from by
          simp [denyRedirectUrl, hstate'],
        Url.getParam_setParam_other _ "error_description" "error" _ (by decide),
        Url.getParam_setParam_self]
  · simp [confirmConsent, falsyOpt, hts, hlk]

theorem consent_action_dichotomy_witness :
    (confirmConsent sampleEnv (.ok sampleMeta) "https://broker.example/callback"
      { transaction_state := some "t", consent_token := some "ctok",
        consent_action := none } sampleJar
      = (.redirect (denyRedirectUrl sampleBundle),
         eraseCookie sampleJar (cookieName "t")))
    ∧ (denyRedirectUrl sampleBundle).getParam "error" = some "access_denied"
    ∧ (confirmConsent sampleEnv (.ok sampleMeta) "https://broker.example/callback"
      { transaction_state := some "t", consent_token := some "ctok",
        consent_action := some "approve" } sampleJar
      = (.redirect (upstreamAuthUrl sampleEnv "https://idp.example/authorize"
          "https://broker.example/callback" sampleBundle "t"), sampleJar)) := by
  have h := consent_action_dichotomy sampleEnv sampleMeta
    "https://broker.example/callback" "t" sampleJar sampleBundle none (by decide) rfl
  exact ⟨h.1 (by decide), h.2.1, h.2.2⟩

/-- Whatever the outcome of the network interactions, a callback that finds
a live transaction erases its cookie: the transaction is consumed before any
upstream exchange is attempted. -/
theorem callback_consumes (s : String) (codeParam : Option String)
    (jar : CookieJar) (o : CallbackOracle) (b : Auth0AuthRequest)
    (hs : s ≠ "") (hlk : getCookie jar (cookieName s) = some b) :
    (callback (some s) codeParam jar o).2 = eraseCookie jar (cookieName s) := by
  have h1 : falsyOpt (some s) = some s := by simp [falsyOpt, hs]
  simp only [callback, h1, hlk]
  repeat' split
  all_goals rfl

/-- Claim C1: a callback whose state query parameter does not map to a live
(not yet consumed) transaction fails with a 400-class plain-text error and
leaves the jar unchanged; and after any callback for a live transaction has
been processed once (consuming its cookie), a second callback invocation
with identical parameters fails with the 400 transaction error, so a
consumed transaction id never resolves to a bundle again. -/
theorem callback_replay_rejected :
    (∀ (st codeParam : Option String) (jar : CookieJar) (o : CallbackOracle),
      liveTransaction jar st = none →
        ((callback st codeParam jar o).1.is400 = true
          ∧ (callback st codeParam jar o).2 = jar))
    ∧ (∀ (s : String) (codeParam : Option String) (jar : CookieJar)
        (o : CallbackOracle) (b : Auth0AuthRequest),
      s ≠ "" → getCookie jar (cookieName s) = some b →
        callback (some s) codeParam ((callback (some s) codeParam jar o).2) o
          = (.errorText "Invalid transaction state or session expired" 400,
             (callback (some s) codeParam jar o).2)) := by
  constructor
  · intro st codeParam jar o h
    match st with
    | none => exact ⟨rfl, rfl⟩
    | some s =>
      by_cases hs : s = ""
      · subst hs
        exact ⟨rfl, rfl⟩
      · have h1 : falsyOpt (some s) = some s := by simp [falsyOpt, hs]
        have h2 : getCookie jar (cookieName s) = none := by
          simpa [liveTransaction, h1] using h
        simp [callback, h1, h2, CallbackResult.is400]
  · intro s codeParam jar o b hs hlk
    have hc := callback_consumes s codeParam jar o b hs hlk
    rw [hc]
    have h1 : falsyOpt (some s) = some s := by simp [falsyOpt, hs]
    simp [callback, h1, getCookie_erase_self]

theorem callback_replay_rejected_witness :
    ((callback (some "t") (some "abc") [] sampleCbOracle).1.is400 = true
      ∧ (callback (some "t") (some "abc") [] sampleCbOracle).2 = [])
    ∧ callback (some "t") (some "abc")
        ((callback (some "t") (some "abc") sampleJar sampleCbOracle).2) sampleCbOracle
      = (.errorText "Invalid transaction state or session expired" 400,
         (callback (some "t") (some "abc") sampleJar sampleCbOracle).2) :=
  ⟨callback_replay_rejected.1 (some "t") (some "abc") [] sampleCbOracle rfl,
   callback_replay_rejected.2 "t" (some "abc") sampleJar sampleCbOracle sampleBundle
     (by decide) rfl⟩

/-- Claim C3: the callback validates the ID token against the nonce stored
in the pending authorization for that transaction, and a token whose nonce
differs from the stored one makes the flow fail with no completed downstream
grant, even when the signature, issuer and audience checks all pass. -/
theorem callback_nonce_mismatch_fails (s code : String) (jar : CookieJar)
    (o : CallbackOracle) (b : Auth0AuthRequest) (m : OidcMeta)
    (resp : TokenResponse) (claims : IdentityClaims)
    (hs : s ≠ "") (hlk : getCookie jar (cookieName s) = some b)
    (hmeta : o.meta = .ok m) (hst : s = b.transactionState)
    (htr : o.tokenResp = .ok resp)
    (hsig : resp.sigValid = true) (hiss : resp.issuerValid = true)
    (haud : resp.audienceValid = true)
    (hcl : resp.claims = some claims) (hnonce : claims.nonce ≠ b.nonce) :
    callback (some s) (some code) jar o
      = (.failure "InvalidIdToken", eraseCookie jar (cookieName s)) := by
  subst hst
  have h1 : falsyOpt (some b.transactionState) = some b.transactionState := by
    simp [falsyOpt, hs]
  have hproc : processAuthorizationCodeResponse resp b.nonce = false := by
    simp [processAuthorizationCodeResponse, hcl, hnonce]
  simp [callback, h1, hlk, hmeta, htr, hproc]

theorem callback_nonce_mismatch_fails_witness :
    callback (some "t") (some "abc") sampleJar sampleCbOracleBadNonce
      = (.failure "InvalidIdToken", eraseCookie sampleJar (cookieName "t")) :=
  callback_nonce_mismatch_fails "t" "abc" sampleJar sampleCbOracleBadNonce
    sampleBundle sampleMeta sampleBadNonceResp sampleBadNonceClaims
    (by decide) rfl rfl rfl rfl rfl rfl rfl rfl (by decide)

/-- The search parameters of the upstream authorization URL, in the order
they are set. -/
theorem upstreamAuthUrl_params (envc : EnvCfg) (authEndpoint callbackUri : String)
    (b : Auth0AuthRequest) (ts : String) :
    (upstreamAuthUrl envc authEndpoint callbackUri b ts).params
      = [("client_id", envc.AUTH0_CLIENT_ID), ("redirect_uri", callbackUri),
         ("response_type", "code"), ("audience", envc.AUTH0_AUDIENCE),
         ("scope", envc.AUTH0_SCOPE), ("code_challenge", b.codeChallenge),
         ("code_challenge_method", "S256"), ("nonce", b.nonce), ("state", ts)] := by
  simp [upstreamAuthUrl, Url.setParam]

/-- Claim C8: after the authorize step has persisted the bundle, an approved
consent submission (live transaction, matching consent token) redirects to
the upstream authorization URL carrying response_type=code, the broker's own
callback redirect URI, the configured audience and scope, a code challenge
equal to the S256 challenge derived from the code verifier stored in the
bundle, code_challenge_method=S256, the stored nonce, and state equal to the
transaction id. -/
theorem approve_upstream_redirect_params
    (challenge : String → String) (lookupClient : String → Option ClientInfo)
    (envc : EnvCfg) (meta : OidcMeta) (callbackUri : String)
    (req : AuthRequest) (rnd : Rnd) (jar : CookieJar) (cl : ClientInfo)
    (hcid : req.clientId ≠ "") (hcl : lookupClient req.clientId = some cl)
    (hts : rnd.transactionState ≠ "") :
    getCookie (authorize challenge lookupClient envc req rnd jar).2
        (cookieName rnd.transactionState) = some (authBundle challenge req rnd)
    ∧ confirmConsent envc (.ok meta) callbackUri
        { transaction_state := some rnd.transactionState,
          consent_token := some rnd.consentToken,
          consent_action := some "approve" }
        (authorize challenge lookupClient envc req rnd jar).2
      = (.redirect (upstreamAuthUrl envc meta.authorization_endpoint callbackUri
           (authBundle challenge req rnd) rnd.transactionState),
         (authorize challenge lookupClient envc req rnd jar).2)
    ∧ (upstreamAuthUrl envc meta.authorization_endpoint callbackUri
        (authBundle challenge req rnd) rnd.transactionState).base
        = meta.authorization_endpoint
    ∧ (upstreamAuthUrl envc meta.authorization_endpoint callbackUri
        (authBundle challenge req rnd) rnd.transactionState).getParam "response_type"
        = some "code"
    ∧ (upstreamAuthUrl envc meta.authorization_endpoint callbackUri
        (authBundle challenge req rnd) rnd.transactionState).getParam "redirect_uri"
        = some callbackUri
    ∧ (upstreamAuthUrl envc meta.authorization_endpoint callbackUri
        (authBundle challenge req rnd) rnd.transactionState).getParam "audience"
        = some envc.AUTH0_AUDIENCE
    ∧ (upstreamAuthUrl envc meta.authorization_endpoint callbackUri
        (authBundle challenge req rnd) rnd.transactionState).getParam "scope"
        = some envc.AUTH0_SCOPE
    ∧ (upstreamAuthUrl envc meta.authorization_endpoint callbackUri
        (authBundle challenge req rnd) rnd.transactionState).getParam "code_challenge"
        = some (challenge (authBundle challenge req rnd).codeVerifier)
    ∧ (upstreamAuthUrl envc meta.authorization_endpoint callbackUri
        (authBundle challenge req rnd) rnd.transactionState).getParam
          "code_challenge_method" = some "S256"
    ∧ (upstreamAuthUrl envc meta.authorization_endpoint callbackUri
        (authBundle challenge req rnd) rnd.transactionState).getParam "nonce"
        = some (authBundle challenge req rnd).nonce
    ∧ (upstreamAuthUrl envc meta.authorization_endpoint callbackUri
        (authBundle challenge req rnd) rnd.transactionState).getParam "state"
        = some rnd.transactionState := by
  have hjar : (authorize challenge lookupClient envc req rnd jar).2
      = putCookie jar (cookieName rnd.transactionState) (authBundle challenge req rnd) := by
    simp [authorize, hcid, hcl]
  have hget : getCookie (authorize challenge lookupClient envc req rnd jar).2
      (cookieName rnd.transactionState) = some (authBundle challenge req rnd) := by
    rw [hjar]
    exact getCookie_put_self _ _ _
  refine ⟨hget, ?_, rfl, ?_, ?_, ?_, ?_, ?_, ?_, ?_, ?_⟩
  · simp [confirmConsent, falsyOpt, hts, hget, authBundle]
  all_goals simp [Url.getParam, upstreamAuthUrl_params, authBundle]

theorem approve_upstream_redirect_params_witness :
    getCookie (authorize sampleChallenge sampleLookup sampleEnv sampleReq
        sampleRnd []).2 (cookieName "t")
      = some (authBundle sampleChallenge sampleReq sampleRnd)
    ∧ confirmConsent sampleEnv (.ok sampleMeta) "https://broker.example/callback"
        { transaction_state := some "t", consent_token := some "ctok",
          consent_action := some "approve" }
        (authorize sampleChallenge sampleLookup sampleEnv sampleReq sampleRnd []).2
      = (.redirect (upstreamAuthUrl sampleEnv "https://idp.example/authorize"
           "https://broker.example/callback"
           (authBundle sampleChallenge sampleReq sampleRnd) "t"),
         (authorize sampleChallenge sampleLookup sampleEnv sampleReq sampleRnd []).2)
    ∧ (upstreamAuthUrl sampleEnv "https://idp.example/authorize"
        "https://broker.example/callback"
        (authBundle sampleChallenge sampleReq sampleRnd) "t").base
        = "https://idp.example/authorize"
    ∧ (upstreamAuthUrl sampleEnv "https://idp.example/authorize"
        "https://broker.example/callback"
        (authBundle sampleChallenge sampleReq sampleRnd) "t").getParam "response_type"
        = some "code"
    ∧ (upstreamAuthUrl sampleEnv "https://idp.example/authorize"
        "https://broker.example/callback"
        (authBundle sampleChallenge sampleReq sampleRnd) "t").getParam "redirect_uri"
        = some "https://broker.example/callback"
    ∧ (upstreamAuthUrl sampleEnv "https://idp.example/authorize"
        "https://broker.example/callback"
        (authBundle sampleChallenge sampleReq sampleRnd) "t").getParam "audience"
        = some "aud"
    ∧ (upstreamAuthUrl sampleEnv "https://idp.example/authorize"
        "https://broker.example/callback"
        (authBundle sampleChallenge sampleReq sampleRnd) "t").getParam "scope"
        = some "openid profile"
    ∧ (upstreamAuthUrl sampleEnv "https://idp.example/authorize"
        "https://broker.example/callback"
        (authBundle sampleChallenge sampleReq sampleRnd) "t").getParam "code_challenge"
        = some (sampleChallenge "ver")
    ∧ (upstreamAuthUrl sampleEnv "https://idp.example/authorize"
        "https://broker.example/callback"
        (authBundle sampleChallenge sampleReq sampleRnd) "t").getParam
          "code_challenge_method" = some "S256"
    ∧ (upstreamAuthUrl sampleEnv "https://idp.example/authorize"
        "https://broker.example/callback"
        (authBundle sampleChallenge sampleReq sampleRnd) "t").getParam "nonce"
        = some "non"
    ∧ (upstreamAuthUrl sampleEnv "https://idp.example/authorize"
        "https://broker.example/callback"
        (authBundle sampleChallenge sampleReq sampleRnd) "t").getParam "state"
        = some "t" := by
  have h := approve_upstream_redirect_params sampleChallenge sampleLookup sampleEnv
    sampleMeta "https://broker.example/callback" sampleReq sampleRnd [] sampleClient
    (by decide) rfl (by decide)
  exact h

end McpAuth0
